import Mathlib

/-!
# Verification of the SmartClaim multi-tenant RAG pipeline and SLA engine

Shallow embedding of the access-control, retrieval, chunking and SLA-prediction
code of the SmartClaim repository (`python-services/rag/tenant_filter.py`,
`vector_store.py`, `query_pipeline.py`, `chunking.py`, and
`python-services/sla/sla_engine.py`), together with theorems settling the
specification claims about them.

Conventions:
* Python strings are Lean `String`s (or `List Char` for the chunker, which
  manipulates text positionally); Python `Optional[T]` is `Option T`.
* Python floats are modelled as rationals `ℚ`; Python `round(x, n)` is
  modelled as exact round-half-to-even on rationals.
* Python code that raises is modelled with `Except String`.
-/

deriving instance DecidableEq for Except

/-- Python `str.lower` restricted to ASCII.  Every role, priority, category and
broad-query pattern string in the embedded code is ASCII, where `Char.toLower`
agrees with Python. -/
def pyLower (s : String) : String := String.mk (s.data.map Char.toLower)

/-- Round half to even on rationals: the tie-breaking behaviour of Python
`round`. -/
def rhe (q : ℚ) : ℤ :=
  let f : ℤ := ⌊q⌋
  let r : ℚ := q - f
  if r < 1/2 then f
  else if 1/2 < r then f + 1
  else if Even f then f else f + 1

/-- Python `round(x, n)` modelled exactly on rationals. -/
def pyRound (n : ℕ) (q : ℚ) : ℚ := (rhe (10 ^ n * q) : ℚ) / 10 ^ n

/-! ## Tenant filtering (`rag/tenant_filter.py`)

`UserContext` uses pydantic `use_enum_values`, so at runtime `role` is a plain
string.  `UserRole(user_context.role)` raises `ValueError` for a string that is
not one of the three enum values; this is modelled with `Except String`. -/

/-- `UserContext` from `tenant_filter.py`. -/
structure UserContext where
  user_id : String
  role : String
  department_id : Option String := none
deriving DecidableEq, Repr

/-- The metadata payload fields that tenant filtering and the payload indexes
key on (`created_by` and `department_id` are the two fields the access
decisions read; the rest are the other indexed payload fields). -/
structure DocMetadata where
  created_by : Option String := none
  department_id : Option String := none
  ticket_id : Option String := none
  category : Option String := none
  priority : Option String := none
  status : Option String := none
  chunk_type : Option String := none
deriving DecidableEq, Repr

/-- Python `metadata.get(key)` over the modelled payload fields; any other key
is absent (`None`). -/
def meta_get (m : DocMetadata) (key : String) : Option String :=
  if key = "created_by" then m.created_by
  else if key = "department_id" then m.department_id
  else if key = "ticket_id" then m.ticket_id
  else if key = "category" then m.category
  else if key = "priority" then m.priority
  else if key = "status" then m.status
  else if key = "chunk_type" then m.chunk_type
  else none

/-- A Qdrant `FieldCondition(key, MatchValue(value))` as produced by
`TenantFilterManager`. -/
structure FieldCond where
  key : String
  value : String
deriving DecidableEq, Repr

/-- A Qdrant `Filter(must=[...])` as produced and combined by the code. -/
structure QFilter where
  must : List FieldCond
deriving DecidableEq, Repr

/-- A point payload satisfies a `FieldCondition` with a `MatchValue` iff the
payload holds exactly that value at the key (a missing / null field matches no
`MatchValue`). -/
def cond_matches (c : FieldCond) (m : DocMetadata) : Bool :=
  meta_get m c.key == some c.value

/-- A payload satisfies a `Filter` iff it satisfies every `must` condition. -/
def filter_matches (f : QFilter) (m : DocMetadata) : Bool :=
  f.must.all (fun c => cond_matches c m)

/-- `UserRole(s)`: returns the validated role string, raising `ValueError` for
anything that is not one of the three enum values. -/
def parse_user_role (s : String) : Except String String :=
  if s = "admin" ∨ s = "department_manager" ∨ s = "worker" then .ok s
  else .error "ValueError: invalid UserRole"

/-- The sentinel filter `_build_manager_filter` returns when a department
manager has no `department_id`. -/
def impossibleFilter : QFilter :=
  ⟨[⟨"department_id", "__IMPOSSIBLE_MATCH__"⟩]⟩

/-- `TenantFilterManager.build_filter`.  `None` (i.e. `Option.none` inside
`Except.ok`) means unrestricted access.  Note `_build_manager_filter` tests
`if not user_context.department_id`, which is also true for the empty
string. -/
def build_filter (ctx : UserContext) : Except String (Option QFilter) :=
  match parse_user_role ctx.role with
  | .error e => .error e
  | .ok role =>
    if role = "admin" then
      .ok none
    else if role = "department_manager" then
      match ctx.department_id with
      | none => .ok (some impossibleFilter)
      | some d =>
        if d = "" then .ok (some impossibleFilter)
        else .ok (some ⟨[⟨"department_id", d⟩]⟩)
    else
      -- worker filter; also the documented fallback for unknown roles, which
      -- is unreachable for string roles because `UserRole(role)` raises
      -- first.
      .ok (some ⟨[⟨"created_by", ctx.user_id⟩]⟩)

/-- `TenantFilterManager.validate_access`.  The code first coerces the role via
`UserRole(...)`, which raises for unknown strings; inside `search` this point
is only reached after `build_filter` has already validated the role, so the
unknown-role case (modelled here as `false`, the final `return False`)
is unreachable there. -/
def validate_access (ctx : UserContext) (m : DocMetadata) : Bool :=
  if ctx.role = "admin" then true
  else if ctx.role = "department_manager" then
    m.department_id == ctx.department_id
  else if ctx.role = "worker" then
    m.created_by == some ctx.user_id
  else false

/-- `TenantFilterManager.filter_results`: keep exactly the results whose
metadata passes `validate_access`. -/
def filter_results (ctx : UserContext) (results : List DocMetadata) : List DocMetadata :=
  results.filter (fun m => validate_access ctx m)

/-! ## Vector store (`rag/vector_store.py`) -/

/-- Configured settings from `rag/config.py`. -/
def TOP_K_RESULTS : ℕ := 10

/-- `Settings.SIMILARITY_THRESHOLD = 0.2`. -/
def SIMILARITY_THRESHOLD : ℚ := mkRat 1 5

/-- `Settings.RERANK_TOP_K = 5`. -/
def RERANK_TOP_K : ℕ := 5

/-- An indexed point of the external store, for a fixed query: its payload and
the similarity score the store assigns it against the embedding of that
query. -/
structure IndexedPoint where
  id : String
  score : ℚ
  content : String
  metadata : DocMetadata
deriving DecidableEq, Repr

/-- One formatted search result (step 4 of `VectorStoreService.search`). -/
structure SearchResult where
  id : String
  score : ℚ
  content : String
  metadata : DocMetadata
deriving DecidableEq, Repr

/-- Insert a point into a descending-by-score list. -/
def insertDesc (x : IndexedPoint) : List IndexedPoint → List IndexedPoint
  | [] => [x]
  | y :: ys => if y.score < x.score then x :: y :: ys else y :: insertDesc x ys

/-- Order a list of points by descending score (insertion sort). -/
def sortByScoreDesc (l : List IndexedPoint) : List IndexedPoint :=
  l.foldr insertDesc []

/-- Modelled from the spec: the filtered similarity search of the external
Qdrant store (`client.query_points`), which the repository treats as an external
collaborator (spec §1 non-goals, §6).  It returns the points that satisfy the
query filter and (when one is supplied) meet the score threshold, ordered by
descending similarity score and truncated to `limit`. -/
def query_points (corpus : List IndexedPoint) (f : Option QFilter)
    (threshold : Option ℚ) (limit : ℕ) : List IndexedPoint :=
  ((corpus.filter (fun p =>
      (match f with
       | none => true
       | some qf => filter_matches qf p.metadata) &&
      (match threshold with
       | none => true
       | some θ => decide (θ ≤ p.score)))) |> sortByScoreDesc).take limit

/-- The interpretation of Python `top_k or settings.TOP_K_RESULTS`: both
`None` and `0` are falsy and fall back to the default. -/
def effectiveTopK (topK : Option ℕ) : ℕ :=
  match topK with
  | none => TOP_K_RESULTS
  | some k => if k = 0 then TOP_K_RESULTS else k

/-- Combining the tenant filter with a caller-supplied filter in
`VectorStoreService.search` (concatenation of the `must` lists). -/
def combineFilters (tf addF : Option QFilter) : Option QFilter :=
  match tf, addF with
  | some t, some a => some ⟨t.must ++ a.must⟩
  | some t, none => some t
  | none, a => a

/-- The result list `VectorStoreService.search` builds once the tenant filter
`tf` is available: store query with the combined pre-filter, formatting, and
the `filter_results` post-retrieval audit. -/
def search_results (corpus : List IndexedPoint) (ctx : UserContext)
    (tf : Option QFilter) (topK : Option ℕ) (scoreThreshold : Option ℚ)
    (addF : Option QFilter) : List SearchResult :=
  let θ := match scoreThreshold with
    | none => SIMILARITY_THRESHOLD
    | some v => v
  let applied := if 0 < θ then some θ else none
  let raw := query_points corpus (combineFilters tf addF) applied
    (effectiveTopK topK)
  let formatted := raw.map (fun p =>
    ({ id := p.id, score := p.score, content := p.content,
       metadata := p.metadata } : SearchResult))
  formatted.filter (fun r => validate_access ctx r.metadata)

/-- `VectorStoreService.search`.  A `None` `score_threshold` becomes the
configured default; the threshold kwarg is then passed to the store only when
it is strictly positive.  `build_filter` runs before the `try` block, so its
`ValueError` propagates. -/
def search (corpus : List IndexedPoint) (ctx : UserContext) (topK : Option ℕ)
    (scoreThreshold : Option ℚ) (addF : Option QFilter) :
    Except String (List SearchResult) :=
  match build_filter ctx with
  | .error e => .error e
  | .ok tf => .ok (search_results corpus ctx tf topK scoreThreshold addF)

/-! ## Query pipeline (`rag/query_pipeline.py`) -/

/-- Does `l` start with `pre`? -/
def leadsWith : List Char → List Char → Bool
  | [], _ => true
  | _ :: _, [] => false
  | x :: xs, y :: ys => x = y && leadsWith xs ys

/-- Substring test on character lists (Python `pattern in query_lower`). -/
def containsPat (needle hay : List Char) : Bool :=
  (List.range (hay.length + 1)).any (fun i => leadsWith needle (hay.drop i))

/-- The curated broad-query phrase patterns of `QueryPipeline._is_broad_query`. -/
def broadPatterns : List String :=
  [ "my tickets", "all tickets", "ticket history", "summarize",
    "list tickets", "show tickets", "what tickets", "tickets i have",
    "my claims", "my submissions", "overview", "all my",
    "old tickets", "past tickets", "previous tickets", "ticket i",
    "tickets that i", "insight", "history of my", "my history",
    "resolved tickets", "in process", "in_process", "new tickets",
    "open tickets", "closed tickets", "pending tickets",
    "tickets with status", "status of tickets",
    "departments", "categories", "maintenance tickets",
    "safety tickets", "tickets by category", "tickets by department",
    "how many", "count", "total", "statistics", "analysis" ]

/-- `QueryPipeline._is_broad_query`: the lowercased query contains one of the
broad patterns. -/
def isBroadQuery (q : String) : Bool :=
  broadPatterns.any (fun p => containsPat p.data (pyLower q).data)

/-- The `score_threshold` argument `QueryPipeline.query` passes to
`vector_store.search`: `0.0 if is_broad else None`. -/
def queryScoreThresholdArg (q : String) : Option ℚ :=
  if isBroadQuery q then some 0 else none

/-- Whether `QueryPipeline.query` runs the rerank step:
`rerank and not is_broad and len(search_results) > settings.RERANK_TOP_K`. -/
def queryRerankUsed (rerank : Bool) (q : String) (numResults : ℕ) : Bool :=
  rerank && !isBroadQuery q && decide (RERANK_TOP_K < numResults)

/-- The similarity threshold `VectorStoreService.search` actually hands to the
store: a missing threshold becomes the configured default, and the kwarg is
included only when the resulting value is strictly positive. -/
def appliedThreshold (scoreThreshold : Option ℚ) : Option ℚ :=
  let θ := match scoreThreshold with
    | none => SIMILARITY_THRESHOLD
    | some v => v
  if 0 < θ then some θ else none

/-! ## Text chunker (`rag/chunking.py`)

Text is modelled as `List Char`.  `ChunkingService` is instantiated with the
configured `CHUNK_SIZE`/`CHUNK_OVERLAP` from `config.py`. -/

/-- `Settings.CHUNK_SIZE`. -/
def CHUNK_SIZE : ℕ := 512

/-- `Settings.CHUNK_OVERLAP`. -/
def CHUNK_OVERLAP : ℕ := 50

/-- The whitespace characters Python `str.strip()` removes (ASCII range). -/
def pySpace (c : Char) : Bool :=
  c = ' ' || c = '\t' || c = '\n' || c = '\r' || c = '\x0b' || c = '\x0c'

/-- Python `str.strip()`. -/
def pyStrip (l : List Char) : List Char :=
  ((l.dropWhile pySpace).reverse.dropWhile pySpace).reverse

/-- Python `text.split(sep)` for a non-empty separator `a :: as`: splits on
every occurrence, keeping empty pieces. -/
def pySplit (a : Char) (as : List Char) : List Char → List (List Char)
  | [] => [[]]
  | c :: rest =>
    if leadsWith (a :: as) (c :: rest) then
      [] :: pySplit a as ((c :: rest).drop (as.length + 1))
    else
      match pySplit a as rest with
      | [] => [[c]]
      | h :: t => (c :: h) :: t
termination_by l => l.length
decreasing_by
  · simp only [List.length_drop, List.length_cons]
    omega
  · simp only [List.length_cons]
    omega

/-- `[text[i:i + size] for i in range(0, len(text), size)]` (only ever called
with a positive `size` and non-empty `text`). -/
def chunksOfSize (size : ℕ) : List Char → List (List Char)
  | [] => []
  | c :: rest =>
    if size = 0 then [c :: rest]
    else (c :: rest).take size :: chunksOfSize size ((c :: rest).drop size)
termination_by l => l.length
decreasing_by
  simp only [List.length_drop, List.length_cons]
  omega

/-- One iteration of the packing loop in `ChunkingService._recursive_split`:
state is `(result, current_chunk)`. -/
def recursiveSplitStep (size : ℕ) (sep : List Char)
    (recur : List Char → List (List Char))
    (acc : List (List Char) × List Char) (split : List Char) :
    List (List Char) × List Char :=
  if split = [] then acc
  else
    let current := acc.2
    let test := if current = [] then split else current ++ sep ++ split
    if test.length ≤ size then (acc.1, test)
    else
      let res1 := if current = [] then acc.1 else acc.1 ++ [current]
      if size < split.length then (res1 ++ recur split, [])
      else (res1, split)

/-- `ChunkingService._recursive_split`. -/
def recursiveSplit (size : ℕ) : List (List Char) → List Char → List (List Char)
  | seps, text =>
    if text = [] then []
    else if text.length ≤ size then [text]
    else
      match seps with
      | [] => chunksOfSize size text
      | sep :: rest =>
        match sep with
        | [] => chunksOfSize size text
        | a :: as =>
          let splits := pySplit a as text
          let out := splits.foldl
            (recursiveSplitStep size (a :: as)
              (fun t => recursiveSplit size rest t)) ([], [])
          out.1 ++ (if out.2 = [] then [] else [out.2])
termination_by seps _ => seps.length

/-- `ChunkingService._get_overlap` with `is_end=True`: the word-boundary
trimmed suffix of the previous chunk, with a trailing space appended (or the
whole text when it is no longer than the overlap). -/
def getOverlap (ovl : ℕ) (text : List Char) : List Char :=
  if text.length ≤ ovl then text
  else
    let ov := text.drop (text.length - ovl)
    let fi := ov.findIdx (fun c => c = ' ')
    if 0 < fi ∧ fi < ov.length then (ov.drop (fi + 1)) ++ [' ']
    else ov ++ [' ']

/-- `ChunkingService._merge_chunks`: skip whitespace-only pieces, prepend the
overlap of the previous merged chunk to every piece after the first, and strip each
appended chunk. -/
def mergeChunks (ovl : ℕ) (chunks : List (List Char)) : List (List Char) :=
  (chunks.foldl (fun (st : ℕ × List (List Char)) chunk =>
    let i := st.1
    let merged := st.2
    let next :=
      if pyStrip chunk = [] then merged
      else
        let chunk2 :=
          if 0 < i ∧ merged ≠ [] then getOverlap ovl (merged.getLast?.getD []) ++ chunk
          else chunk
        merged ++ [pyStrip chunk2]
    (i + 1, next)) (0, [])).2

/-- The separator hierarchy of `ChunkingService`. -/
def chunkSeparators : List (List Char) :=
  ["\n\n".data, "\n".data, ". ".data, "? ".data, "! ".data, "; ".data,
   ", ".data, " ".data, "".data]

/-- The `content` fields of the chunks returned by
`ChunkingService.chunk_text` (each `TextChunk.content` is the merged chunk
stripped once more). -/
def chunkTextContents (size ovl : ℕ) (text : List Char) : List (List Char) :=
  if pyStrip text = [] then []
  else (mergeChunks ovl (recursiveSplit size chunkSeparators text)).map pyStrip

/-! ## SLA engine (`sla/sla_engine.py`) -/

/-- `SLAInput` (the `keywords` field is never read by any engine). -/
structure SLAInput where
  category : String
  priority : String
  description_length : ℤ := 0
  has_attachments : Bool := false
  has_visual_evidence : Bool := false
  visual_severity : Option String := none
  source_count : ℤ := 1
  confidence_score : ℚ := 4/5
  requires_human_review : Bool := false
  department_workload : Option ℚ := none
  time_of_day : Option ℤ := none
  day_of_week : Option ℤ := none
deriving DecidableEq, Repr

/-- The `Category` enum.  Note the enum value for IT is the upper-case string
`"IT"`, so `Category(category.lower())` can never produce it: lower-cased
input is matched against lower-case values only. -/
inductive TicketCategory where
  | safety | quality | maintenance | logistics | hr | it | legal | finance
  | other
deriving DecidableEq, Repr

/-- `Category(input_data.category.lower())` with the `ValueError` fallback to
`Category.OTHER`.  `"it"` does not match the enum value `"IT"`. -/
def parseCategory (s : String) : TicketCategory :=
  match pyLower s with
  | "safety" => .safety
  | "quality" => .quality
  | "maintenance" => .maintenance
  | "logistics" => .logistics
  | "hr" => .hr
  | "legal" => .legal
  | "finance" => .finance
  | "other" => .other
  | _ => .other

/-- `CATEGORY_BASE_SLA`. -/
def baseSLA : TicketCategory → ℚ
  | .safety => 4
  | .quality => 24
  | .maintenance => 48
  | .logistics => 24
  | .hr => 72
  | .it => 16
  | .legal => 120
  | .finance => 72
  | .other => 48

/-- The `Priority` enum. -/
inductive PriorityLevel where
  | low | medium | high | critical
deriving DecidableEq, Repr

/-- `Priority(input_data.priority.lower())` with the `ValueError` fallback to
`Priority.MEDIUM`. -/
def parsePriority (s : String) : PriorityLevel :=
  match pyLower s with
  | "low" => .low
  | "medium" => .medium
  | "high" => .high
  | "critical" => .critical
  | _ => .medium

/-- `PRIORITY_MULTIPLIER`. -/
def priorityMult : PriorityLevel → ℚ
  | .critical => 1/4
  | .high => 1/2
  | .medium => 1
  | .low => 3/2

/-- `VISUAL_SEVERITY_MULTIPLIER.get(severity.lower(), 1.0)`. -/
def severityMult (s : String) : ℚ :=
  match pyLower s with
  | "critical" => 1/2
  | "high" => 3/4
  | "medium" => 1
  | "low" => 6/5
  | _ => 1

/-- Step 1–2 of `RuleBasedSLAEngine.predict`: category baseline × priority
multiplier. -/
def ruleH1 (inp : SLAInput) : ℚ :=
  baseSLA (parseCategory inp.category) * priorityMult (parsePriority inp.priority)

/-- Step 3: visual-severity multiplier, applied only when visual evidence is
present and the severity string is truthy (non-empty). -/
def ruleH2 (inp : SLAInput) : ℚ :=
  match inp.visual_severity with
  | some s =>
    if inp.has_visual_evidence && !(s = "") then ruleH1 inp * severityMult s
    else ruleH1 inp
  | none => ruleH1 inp

/-- Step 4: `+4` hours when human review is required. -/
def ruleH3 (inp : SLAInput) : ℚ :=
  ruleH2 inp + (if inp.requires_human_review then (4:ℚ) else 0)

/-- Step 5: `+16` hours for weekend submissions (`day_of_week >= 5`). -/
def ruleH4 (inp : SLAInput) : ℚ :=
  ruleH3 inp + (match inp.day_of_week with
    | some d => if 5 ≤ d then (16:ℚ) else 0
    | none => 0)

/-- Step 6: proportional penalty when department workload exceeds 0.8. -/
def ruleH5 (inp : SLAInput) : ℚ :=
  ruleH4 inp + (match inp.department_workload with
    | some w => if 4/5 < w then (w - 4/5) * 24 else 0
    | none => 0)

/-- Step 7: geometric evidence-source discount `0.95 ** (source_count - 1)`
applied to the whole accumulated value (including the additive buffers) when
there is more than one source.  This is the hour value of
`RuleBasedSLAEngine.predict` before the final `round` and 1-hour floor. -/
def ruleStage (inp : SLAInput) : ℚ :=
  if 1 < inp.source_count then
    ruleH5 inp * (19/20 : ℚ) ^ (inp.source_count - 1).toNat
  else ruleH5 inp

/-- `round(hours, 1)` in `RuleBasedSLAEngine.predict`, before the floor. -/
def ruleHoursRaw (inp : SLAInput) : ℚ := pyRound 1 (ruleStage inp)

/-- The hours returned by `RuleBasedSLAEngine.predict`:
`max(1.0, round(hours, 1))`. -/
def ruleHours (inp : SLAInput) : ℚ := max 1 (ruleHoursRaw inp)

/-- `MLBasedSLAEngine._statistical_fallback`.  Note `category_adj` holds the
key `"IT"`, which the lower-cased lookup can never hit. -/
def statisticalFallback (inp : SLAInput) : ℚ :=
  let priority_adj : ℚ :=
    match pyLower inp.priority with
    | "critical" => -20
    | "high" => -10
    | "medium" => 0
    | "low" => 12
    | _ => 0
  let category_adj : ℚ :=
    match pyLower inp.category with
    | "safety" => -15
    | "quality" => -5
    | "maintenance" => 10
    | "logistics" => 0
    | "hr" => 15
    | _ => 0
  max 1 (36 + priority_adj + category_adj)

/-- `HybridSLAEngine._calculate_breach_probability`. -/
def breachProbability (predicted_hours : ℚ) (priority : String)
    (confidence : ℚ) : ℚ :=
  let base_prob : ℚ :=
    match pyLower priority with
    | "critical" => 3/20
    | "high" => 3/25
    | "medium" => 1/10
    | "low" => 2/25
    | _ => 1/10
  let time_factor : ℚ :=
    if predicted_hours < 8 then 13/10
    else if predicted_hours < 24 then 1
    else if predicted_hours < 48 then 9/10
    else 4/5
  let confidence_factor : ℚ := 1 + (1 - confidence) * (3/10)
  min 1 (max 0 (base_prob * time_factor * confidence_factor))

/-- `RiskLevel`. -/
inductive RiskLevel where
  | low | medium | high | critical
deriving DecidableEq, Repr

/-- `HybridSLAEngine._determine_risk_level`. -/
def determineRiskLevel (breach_prob : ℚ) (priority : String) : RiskLevel :=
  if pyLower priority = "critical" ∨ 3/10 < breach_prob then .critical
  else if pyLower priority = "high" ∨ 1/5 < breach_prob then .high
  else if 1/10 < breach_prob then .medium
  else .low

/-- Severity order on risk levels. -/
def riskRank : RiskLevel → ℕ
  | .low => 0
  | .medium => 1
  | .high => 2
  | .critical => 3

/-- The fields of `SLAPrediction` the claims are about (the explanation string
and factor list are presentation only). -/
structure HybridOutput where
  predicted_resolution_hours : ℚ
  breach_probability : ℚ
  risk_level : RiskLevel
  confidence : ℚ
  rule_based_hours : ℚ
  ml_based_hours : Option ℚ
  hybrid_weight_rule : ℚ
  hybrid_weight_ml : ℚ
deriving DecidableEq, Repr

/-- `HybridSLAEngine.predict`.  The repository ships no trained model file and
`HybridSLAEngine()` is constructed with `model_path=None`, so
`MLBasedSLAEngine.predict` returns the statistical fallback with confidence
0.5, `is_available` is `False`, and the combiner takes its explicit
rule-only branch (`ml_weight = 0`, `rule_weight = 1`, `ml_hours = None`). -/
def hybridPredict (inp : SLAInput) : HybridOutput :=
  let rule_hours := ruleHours inp
  -- `ml_engine.predict` result on the fallback path; discarded by the
  -- `is_available` branch below.
  let _ml_fallback : ℚ × ℚ := (statisticalFallback inp, 1/2)
  let ml_weight : ℚ := 0
  let rule_weight : ℚ := 1
  let ml_hours : Option ℚ := none
  let final_hours := rule_hours
  let breach_prob := breachProbability final_hours inp.priority inp.confidence_score
  let risk := determineRiskLevel breach_prob inp.priority
  -- `_calculate_confidence(1.0, 0.0, 0.0)` = the rule baseline 0.85.
  let overall_confidence : ℚ := 17/20
  { predicted_resolution_hours := pyRound 1 final_hours
    breach_probability := pyRound 3 breach_prob
    risk_level := risk
    confidence := pyRound 2 overall_confidence
    rule_based_hours := rule_hours
    ml_based_hours := ml_hours
    hybrid_weight_rule := pyRound 2 rule_weight
    hybrid_weight_ml := pyRound 2 ml_weight }

/-! ## Concrete inputs used by witnesses and counterexamples -/

def c1Ctx : UserContext := { user_id := "b", role := "worker" }

def c1Pt : IndexedPoint :=
  { id := "p0", score := 1, content := "c",
    metadata := { created_by := some "b", department_id := some "d" } }

def c1Res : SearchResult :=
  { id := "p0", score := 1, content := "c",
    metadata := { created_by := some "b", department_id := some "d" } }

def c2Ctx : UserContext := { user_id := "m1", role := "department_manager" }

def c3Meta : DocMetadata := { created_by := some "w9" }

def c4Admin : UserContext := { user_id := "root", role := "admin" }

/-- Metadata of a corpus point owned by `owner` in department `d1`. -/
def c4Own (owner : String) : DocMetadata :=
  { created_by := some owner, department_id := some "d1" }

/-- A corpus of 11 points: ten high-scoring points owned by worker `a` and one
lower-scoring point owned by worker `b` (all scores above the default
similarity threshold). -/
def c4Corpus : List IndexedPoint :=
  [ { id := "p0", score := 11, content := "c", metadata := c4Own "a" },
    { id := "p1", score := 10, content := "c", metadata := c4Own "a" },
    { id := "p2", score := 9, content := "c", metadata := c4Own "a" },
    { id := "p3", score := 8, content := "c", metadata := c4Own "a" },
    { id := "p4", score := 7, content := "c", metadata := c4Own "a" },
    { id := "p5", score := 6, content := "c", metadata := c4Own "a" },
    { id := "p6", score := 5, content := "c", metadata := c4Own "a" },
    { id := "p7", score := 4, content := "c", metadata := c4Own "a" },
    { id := "p8", score := 3, content := "c", metadata := c4Own "a" },
    { id := "p9", score := 2, content := "c", metadata := c4Own "a" },
    { id := "p10", score := 1, content := "c", metadata := c4Own "b" } ]

/-- The ids of the results of a `search` call (empty on an exception). -/
def resultIds (e : Except String (List SearchResult)) : List String :=
  match e with
  | .ok l => l.map (fun r => r.id)
  | .error _ => []

def c6Ctx : UserContext := { user_id := "u1", role := "guest" }

def c7Inp : SLAInput := { category := "safety", priority := "critical" }

def c8Inp : SLAInput := { category := "maintenance", priority := "medium" }

def c9Inp : SLAInput :=
  { category := "safety", priority := "critical", has_visual_evidence := true,
    visual_severity := some "critical" }

def c9WitnessInp : SLAInput := { category := "hr", priority := "medium" }

/-- The priority scale of the spec claim, `low < medium < high < critical`. -/
def priorityOrder : List String := ["low", "medium", "high", "critical"]

/-- Rank of a priority string on that scale. -/
def priRank (s : String) : ℕ :=
  if s = "low" then 0
  else if s = "medium" then 1
  else if s = "high" then 2
  else if s = "critical" then 3
  else 1

/-! ## Rounding lemmas -/

theorem le_rhe (q : ℚ) : ⌊q⌋ ≤ rhe q := by
  unfold rhe; dsimp only; split_ifs <;> omega

theorem rhe_le (q : ℚ) : rhe q ≤ ⌊q⌋ + 1 := by
  unfold rhe; dsimp only; split_ifs <;> omega

theorem rhe_mono {x y : ℚ} (h : x ≤ y) : rhe x ≤ rhe y := by
  have hf : ⌊x⌋ ≤ ⌊y⌋ := Int.floor_mono h
  rcases eq_or_lt_of_le hf with heq | hlt
  · unfold rhe
    dsimp only
    rw [← heq]
    split_ifs <;> first | omega | linarith
  · calc rhe x ≤ ⌊x⌋ + 1 := rhe_le x
      _ ≤ ⌊y⌋ := by omega
      _ ≤ rhe y := le_rhe y

theorem rhe_nonneg {x : ℚ} (h : 0 ≤ x) : 0 ≤ rhe x := by
  have h0 : (0:ℤ) ≤ ⌊x⌋ := Int.floor_nonneg.mpr h
  exact le_trans h0 (le_rhe x)

theorem rhe_add_forty (q : ℚ) : rhe (q + 40) = rhe q + 40 := by
  unfold rhe
  have hfl : ⌊q + (40:ℚ)⌋ = ⌊q⌋ + 40 := by
    have := Int.floor_add_int q (40 : ℤ)
    push_cast at this
    exact_mod_cast this
  dsimp only
  rw [hfl]
  have hfr : q + 40 - ((⌊q⌋ + 40 : ℤ) : ℚ) = q - (⌊q⌋ : ℚ) := by push_cast; ring
  rw [hfr]
  have h40 : Even (40:ℤ) := ⟨20, by norm_num⟩
  have hpar : Even (⌊q⌋ + 40) ↔ Even ⌊q⌋ := by
    rw [Int.even_add]
    tauto
  split_ifs with h1 h2 h3 h4 <;> first | rfl | omega | (exfalso; omega) |
    (exfalso; exact absurd (hpar.mp (by assumption)) (by assumption)) |
    (exfalso; exact absurd (hpar.mpr (by assumption)) (by assumption))

theorem pyRound_mono (n : ℕ) {x y : ℚ} (h : x ≤ y) : pyRound n x ≤ pyRound n y := by
  unfold pyRound
  have h1 : rhe (10 ^ n * x) ≤ rhe (10 ^ n * y) := by
    apply rhe_mono
    have : (0:ℚ) ≤ 10 ^ n := by positivity
    nlinarith
  have h2 : ((rhe (10 ^ n * x) : ℚ)) ≤ (rhe (10 ^ n * y) : ℚ) := by exact_mod_cast h1
  have h3 : (0:ℚ) < 10 ^ n := by positivity
  gcongr

theorem pyRound_nonneg (n : ℕ) {x : ℚ} (h : 0 ≤ x) : 0 ≤ pyRound n x := by
  unfold pyRound
  have h1 : (0:ℤ) ≤ rhe (10 ^ n * x) := rhe_nonneg (by positivity)
  have h2 : (0:ℚ) ≤ (rhe (10 ^ n * x) : ℚ) := by exact_mod_cast h1
  positivity

theorem pyRound_one_add_four (q : ℚ) : pyRound 1 (q + 4) = pyRound 1 q + 4 := by
  unfold pyRound
  have h : (10:ℚ) ^ 1 * (q + 4) = 10 ^ 1 * q + 40 := by ring
  rw [h, rhe_add_forty]
  push_cast
  ring

/-! ## Sorting lemmas -/

theorem mem_insertDesc {x y : IndexedPoint} {l : List IndexedPoint} :
    y ∈ insertDesc x l ↔ y = x ∨ y ∈ l := by
  induction l with
  | nil => simp [insertDesc]
  | cons a as ih =>
    simp only [insertDesc]
    split_ifs with h
    · simp [or_assoc]
    · simp [ih]
      tauto

theorem mem_sortByScoreDesc {y : IndexedPoint} {l : List IndexedPoint} :
    y ∈ sortByScoreDesc l ↔ y ∈ l := by
  induction l with
  | nil => simp [sortByScoreDesc]
  | cons a as ih =>
    simp only [sortByScoreDesc, List.foldr_cons] at *
    rw [mem_insertDesc, ih]
    simp

theorem length_insertDesc (x : IndexedPoint) (l : List IndexedPoint) :
    (insertDesc x l).length = l.length + 1 := by
  induction l with
  | nil => rfl
  | cons a as ih =>
    simp only [insertDesc]
    split_ifs with h <;> simp [ih]

theorem length_sortByScoreDesc (l : List IndexedPoint) :
    (sortByScoreDesc l).length = l.length := by
  induction l with
  | nil => rfl
  | cons a as ih =>
    simp only [sortByScoreDesc, List.foldr_cons] at *
    rw [length_insertDesc, ih, List.length_cons]

/-! ## Supporting lemmas about `search` -/

theorem mem_of_query_points {p : IndexedPoint} {corpus : List IndexedPoint}
    {f : Option QFilter} {θ : Option ℚ} {k : ℕ}
    (h : p ∈ query_points corpus f θ k) :
    p ∈ corpus ∧
      (∀ qf, f = some qf → filter_matches qf p.metadata = true) ∧
      (∀ t, θ = some t → t ≤ p.score) := by
  unfold query_points at h
  have h1 := List.mem_of_mem_take h
  rw [mem_sortByScoreDesc] at h1
  have h2 := List.mem_filter.mp h1
  have h3 := h2.2
  rw [Bool.and_eq_true] at h3
  refine ⟨h2.1, ?_, ?_⟩
  · intro qf hqf
    have := h3.1
    rw [hqf] at this
    exact this
  · intro t ht
    have := h3.2
    rw [ht] at this
    exact of_decide_eq_true this

/-! ## Claim C1: tenant isolation -/

theorem search_eq_ok {corpus : List IndexedPoint} {ctx : UserContext}
    {topK : Option ℕ} {st : Option ℚ} {addF : Option QFilter}
    {tf : Option QFilter} (hb : build_filter ctx = .ok tf) :
    search corpus ctx topK st addF =
      .ok (search_results corpus ctx tf topK st addF) := by
  unfold search
  rw [hb]

/-- C1.  Tenant isolation: whenever `VectorStoreService.search` returns a
result list (for any user context, corpus, top-k, threshold and additional
filter), the metadata of every returned chunk passes
`TenantFilterManager.validate_access` for that context — the post-retrieval
audit accepts every element of the returned list. -/
theorem tenant_isolation (corpus : List IndexedPoint) (ctx : UserContext)
    (topK : Option ℕ) (st : Option ℚ) (addF : Option QFilter)
    (res : List SearchResult)
    (h : search corpus ctx topK st addF = .ok res) :
    ∀ r ∈ res, validate_access ctx r.metadata = true := by
  unfold search at h
  cases hb : build_filter ctx with
  | error e =>
    rw [hb] at h
    simp at h
  | ok tf =>
    rw [hb] at h
    simp only [Except.ok.injEq] at h
    subst h
    intro r hr
    simp only [search_results] at hr
    exact (List.mem_filter.mp hr).2

/-- Witness for C1 at a concrete corpus and worker context. -/
theorem tenant_isolation_witness : validate_access c1Ctx c1Res.metadata = true :=
  tenant_isolation [c1Pt] c1Ctx none none none [c1Res] (by decide) c1Res (by decide)

/-! ## Claim C2: fail-closed manager -/

/-- C2.  Fail-closed manager: for every `department_manager` context with no
`department_id`, `build_filter` returns the sentinel filter (not `None`, not
unrestricted), no record whose `department_id` differs from the sentinel value
satisfies that filter, and `search` with that context returns the empty list
for every query/corpus/options — even a corpus whose points carry the literal
sentinel value yields no results, because the post-retrieval audit rejects
them. -/
theorem fail_closed_manager (ctx : UserContext)
    (hrole : ctx.role = "department_manager")
    (hdept : ctx.department_id = none) :
    build_filter ctx = .ok (some impossibleFilter) ∧
    (∀ m : DocMetadata, m.department_id ≠ some "__IMPOSSIBLE_MATCH__" →
       filter_matches impossibleFilter m = false) ∧
    (∀ (corpus : List IndexedPoint) (topK : Option ℕ) (st : Option ℚ)
       (addF : Option QFilter), search corpus ctx topK st addF = .ok []) := by
  have hbf : build_filter ctx = .ok (some impossibleFilter) := by
    simp [build_filter, parse_user_role, hrole, hdept]
  refine ⟨hbf, ?_, ?_⟩
  · intro m hm
    simp [filter_matches, impossibleFilter, cond_matches, meta_get, hm]
  · intro corpus topK st addF
    rw [search_eq_ok hbf]
    simp only [Except.ok.injEq, search_results]
    rw [List.filter_eq_nil_iff]
    intro r hr
    rw [List.mem_map] at hr
    obtain ⟨p, hp, hfmt⟩ := hr
    have hsent : p.metadata.department_id = some "__IMPOSSIBLE_MATCH__" := by
      cases addF with
      | none =>
        have hqp := (mem_of_query_points hp).2.1 impossibleFilter rfl
        simp [filter_matches, impossibleFilter, cond_matches, meta_get] at hqp
        exact hqp
      | some a =>
        have hqp := (mem_of_query_points hp).2.1
          ⟨impossibleFilter.must ++ a.must⟩ rfl
        simp [filter_matches, impossibleFilter, cond_matches, meta_get] at hqp
        exact hqp.1
    subst hfmt
    simp [validate_access, hrole, hdept, hsent]

/-- Witness for C2: a manager context with no department gets the sentinel
filter and an empty result list on a concrete non-empty corpus. -/
theorem fail_closed_manager_witness :
    build_filter c2Ctx = .ok (some impossibleFilter) ∧
    search [c1Pt] c2Ctx none none none = .ok [] :=
  ⟨(fail_closed_manager c2Ctx rfl rfl).1,
   (fail_closed_manager c2Ctx rfl rfl).2.2 [c1Pt] none none none⟩

/-! ## Claim C3: the two access decisions disagree on null-department
documents -/

/-- C3.  For a `department_manager` context with `department_id = None` and a
document whose `department_id` is absent/`None`, the post-retrieval audit
`validate_access` returns `True` (`None == None`), while `build_filter` for
the same context returns the unsatisfiable sentinel filter, which that
document does not match: the pre-filter and the audit disagree on this
input. -/
theorem null_department_disagreement (ctx : UserContext) (m : DocMetadata)
    (hrole : ctx.role = "department_manager")
    (hdept : ctx.department_id = none)
    (hdoc : m.department_id = none) :
    validate_access ctx m = true ∧
    build_filter ctx = .ok (some impossibleFilter) ∧
    filter_matches impossibleFilter m = false := by
  refine ⟨?_, ?_, ?_⟩
  · simp [validate_access, hrole, hdept, hdoc]
  · simp [build_filter, parse_user_role, hrole, hdept]
  · simp [filter_matches, impossibleFilter, cond_matches, meta_get, hdoc]

/-- Witness for C3 at a concrete manager context and metadata record. -/
theorem null_department_disagreement_witness :
    validate_access c2Ctx c3Meta = true ∧
    build_filter c2Ctx = .ok (some impossibleFilter) ∧
    filter_matches impossibleFilter c3Meta = false :=
  null_department_disagreement c2Ctx c3Meta rfl rfl rfl

/-! ## Claim C5: broad-query bypass -/

/-- C5.  For every query matching a broad pattern, `QueryPipeline.query`
passes `score_threshold = 0` to `search` and skips the rerank step; inside
`search`, an explicit threshold of `0` results in no threshold kwarg being
sent to the store, while an absent threshold becomes the configured default
`SIMILARITY_THRESHOLD = 0.2` — distinct code paths with distinct effects. -/
theorem broad_query_bypass (q : String) (h : isBroadQuery q = true) :
    queryScoreThresholdArg q = some 0 ∧
    (∀ (rerank : Bool) (n : ℕ), queryRerankUsed rerank q n = false) ∧
    appliedThreshold (queryScoreThresholdArg q) = none ∧
    appliedThreshold none = some SIMILARITY_THRESHOLD ∧
    appliedThreshold (some 0) ≠ appliedThreshold none := by
  refine ⟨?_, ?_, ?_, ?_, ?_⟩
  · simp [queryScoreThresholdArg, h]
  · intro rerank n
    simp [queryRerankUsed, h]
  · simp [queryScoreThresholdArg, h, appliedThreshold]
  · decide
  · decide

/-- Witness for C5 at a concrete broad query. -/
theorem broad_query_bypass_witness :
    queryScoreThresholdArg "How many tickets do I have?" = some 0 ∧
    queryRerankUsed true "How many tickets do I have?" 9 = false :=
  ⟨(broad_query_bypass "How many tickets do I have?" (by decide)).1,
   (broad_query_bypass "How many tickets do I have?" (by decide)).2.1 true 9⟩

/-! ## Claim C6: unknown-role handling -/

/-- C6.  Evaluating the code at an unknown role: `build_filter` raises
`ValueError` from the `UserRole(user_context.role)` coercion before the
"default to worker filter" branch can run, so a context with an unknown
string role gets an exception, not the worker-equivalent filter. -/
theorem unknown_role_raises :
    build_filter c6Ctx = .error "ValueError: invalid UserRole" := by decide

/-! ## Claim C4: admin superset -/

theorem validate_access_admin {ctx : UserContext} (ha : ctx.role = "admin")
    (m : DocMetadata) : validate_access ctx m = true := by
  simp [validate_access, ha]

theorem build_filter_admin {ctx : UserContext} (ha : ctx.role = "admin") :
    build_filter ctx = .ok none := by
  simp [build_filter, parse_user_role, ha]

/-- C4 counterexample: on an 11-point corpus, the search of worker `b` returns
the id `p10`, but the admin search for the same query does not contain `p10` —
both result lists are truncated to `top_k = 10` and the global admin top-10
consists of the higher-scoring points of worker `a`.  The claim as stated
(admin results are a superset of the results of every other context) is
therefore false. -/
theorem admin_superset_counterexample :
    "p10" ∈ resultIds (search c4Corpus c1Ctx none none none) ∧
    "p10" ∉ resultIds (search c4Corpus c4Admin none none none) := by decide

/-- C4 amended.  Admin superset holds when the admin result is not truncated:
if at most `top_k` corpus points meet the effective similarity threshold, then
for the same query and default options, every result id of the search of any
other context also appears in the admin search results. -/
theorem admin_superset (corpus : List IndexedPoint) (ctx actx : UserContext)
    (ha : actx.role = "admin")
    (hlen : (corpus.filter
      (fun p => decide (SIMILARITY_THRESHOLD ≤ p.score))).length ≤ TOP_K_RESULTS)
    (res ares : List SearchResult)
    (h : search corpus ctx none none none = .ok res)
    (h2 : search corpus actx none none none = .ok ares) :
    ∀ r ∈ res, ∃ r2 ∈ ares, r2.id = r.id := by
  rw [search_eq_ok (build_filter_admin ha)] at h2
  simp only [Except.ok.injEq] at h2
  subst h2
  unfold search at h
  cases hb : build_filter ctx with
  | error e =>
    rw [hb] at h
    simp at h
  | ok tf =>
    rw [hb] at h
    simp only [Except.ok.injEq] at h
    subst h
    intro r hr
    simp only [search_results] at hr
    have hr2 := List.mem_filter.mp hr
    obtain ⟨p, hp, hfmt⟩ := List.mem_map.mp hr2.1
    have hmq := mem_of_query_points hp
    have hpc : p ∈ corpus := hmq.1
    have hscore : SIMILARITY_THRESHOLD ≤ p.score :=
      hmq.2.2 SIMILARITY_THRESHOLD (by decide)
    have hθ : (if 0 < SIMILARITY_THRESHOLD then some SIMILARITY_THRESHOLD
        else none) = some SIMILARITY_THRESHOLD := by decide
    refine ⟨{ id := p.id, score := p.score, content := p.content,
              metadata := p.metadata }, ?_, ?_⟩
    · simp only [search_results]
      apply List.mem_filter.mpr
      refine ⟨?_, validate_access_admin ha _⟩
      apply List.mem_map_of_mem
      unfold query_points
      rw [List.take_of_length_le]
      · rw [mem_sortByScoreDesc]
        apply List.mem_filter.mpr
        refine ⟨hpc, ?_⟩
        simp [combineFilters, hθ, hscore]
      · rw [length_sortByScoreDesc]
        calc (corpus.filter _).length
            = (corpus.filter
                (fun p => decide (SIMILARITY_THRESHOLD ≤ p.score))).length := by
              apply congrArg
              apply List.filter_congr
              intro x _
              simp [combineFilters, hθ]
          _ ≤ TOP_K_RESULTS := hlen
    · subst hfmt
      rfl

/-- Witness for C4 (amended) at a concrete one-point corpus. -/
theorem admin_superset_witness :
    ∃ r2 ∈ [c1Res], r2.id = c1Res.id :=
  admin_superset [c1Pt] c1Ctx c4Admin rfl (by decide) [c1Res] [c1Res]
    (by decide) (by decide) c1Res (by decide)

/-! ## SLA rule-engine lemmas -/

theorem baseSLA_nonneg (c : TicketCategory) : 0 ≤ baseSLA c := by
  cases c <;> norm_num [baseSLA]

theorem priorityMult_nonneg (p : PriorityLevel) : 0 ≤ priorityMult p := by
  cases p <;> norm_num [priorityMult]

theorem severityMult_nonneg (s : String) : 0 ≤ severityMult s := by
  unfold severityMult
  split <;> norm_num

theorem ruleH1_nonneg (inp : SLAInput) : 0 ≤ ruleH1 inp :=
  mul_nonneg (baseSLA_nonneg _) (priorityMult_nonneg _)

theorem ruleH2_nonneg (inp : SLAInput) : 0 ≤ ruleH2 inp := by
  unfold ruleH2
  split
  · split_ifs
    · exact mul_nonneg (ruleH1_nonneg _) (severityMult_nonneg _)
    · exact ruleH1_nonneg _
  · exact ruleH1_nonneg _

theorem ruleH3_nonneg (inp : SLAInput) : 0 ≤ ruleH3 inp := by
  unfold ruleH3
  have := ruleH2_nonneg inp
  split_ifs <;> linarith

theorem ruleH4_nonneg (inp : SLAInput) : 0 ≤ ruleH4 inp := by
  unfold ruleH4
  have := ruleH3_nonneg inp
  split
  · split_ifs <;> linarith
  · linarith

theorem ruleH5_nonneg (inp : SLAInput) : 0 ≤ ruleH5 inp := by
  unfold ruleH5
  have := ruleH4_nonneg inp
  split
  · split_ifs with hw
    · linarith
    · linarith
  · linarith

theorem ruleStage_nonneg (inp : SLAInput) : 0 ≤ ruleStage inp := by
  unfold ruleStage
  have h5 := ruleH5_nonneg inp
  split_ifs
  · exact mul_nonneg h5 (by positivity)
  · exact h5

theorem ruleH1_mono {inp : SLAInput} {p q : String}
    (h : priorityMult (parsePriority q) ≤ priorityMult (parsePriority p)) :
    ruleH1 {inp with priority := q} ≤ ruleH1 {inp with priority := p} := by
  unfold ruleH1
  exact mul_le_mul_of_nonneg_left h (baseSLA_nonneg _)

theorem ruleH2_mono {inp : SLAInput} {p q : String}
    (h : priorityMult (parsePriority q) ≤ priorityMult (parsePriority p)) :
    ruleH2 {inp with priority := q} ≤ ruleH2 {inp with priority := p} := by
  have h1 := @ruleH1_mono inp p q h
  unfold ruleH2
  dsimp only
  rcases inp.visual_severity with _ | s <;> dsimp only
  · exact h1
  · split_ifs
    · exact mul_le_mul_of_nonneg_right h1 (severityMult_nonneg s)
    · exact h1

theorem ruleH3_mono {inp : SLAInput} {p q : String}
    (h : priorityMult (parsePriority q) ≤ priorityMult (parsePriority p)) :
    ruleH3 {inp with priority := q} ≤ ruleH3 {inp with priority := p} := by
  unfold ruleH3
  exact add_le_add_right (ruleH2_mono h) _

theorem ruleH4_mono {inp : SLAInput} {p q : String}
    (h : priorityMult (parsePriority q) ≤ priorityMult (parsePriority p)) :
    ruleH4 {inp with priority := q} ≤ ruleH4 {inp with priority := p} := by
  unfold ruleH4
  exact add_le_add_right (ruleH3_mono h) _

theorem ruleH5_mono {inp : SLAInput} {p q : String}
    (h : priorityMult (parsePriority q) ≤ priorityMult (parsePriority p)) :
    ruleH5 {inp with priority := q} ≤ ruleH5 {inp with priority := p} := by
  unfold ruleH5
  exact add_le_add_right (ruleH4_mono h) _

theorem ruleStage_mono {inp : SLAInput} {p q : String}
    (h : priorityMult (parsePriority q) ≤ priorityMult (parsePriority p)) :
    ruleStage {inp with priority := q} ≤ ruleStage {inp with priority := p} := by
  unfold ruleStage
  dsimp only
  split_ifs
  · exact mul_le_mul_of_nonneg_right (ruleH5_mono h) (by positivity)
  · exact ruleH5_mono h

/-! ## Claim C7: breach-risk override -/

/-- C7.  Critical-priority override: every `SLAInput` with `priority =
"critical"` is predicted at `risk_level = critical` by `HybridSLAEngine`,
whatever the computed breach probability and the other fields; and for every
priority string the risk level is monotone in the breach probability — a
larger probability can only move the level upward, never downward. -/
theorem breach_risk_override (inp : SLAInput) (h : inp.priority = "critical") :
    (hybridPredict inp).risk_level = RiskLevel.critical ∧
    ∀ (pr : String) (a b : ℚ), a ≤ b →
      riskRank (determineRiskLevel a pr) ≤ riskRank (determineRiskLevel b pr) := by
  constructor
  · have hc : pyLower inp.priority = "critical" := by rw [h]; decide
    have hrl : (hybridPredict inp).risk_level =
        determineRiskLevel
          (breachProbability (ruleHours inp) inp.priority inp.confidence_score)
          inp.priority := rfl
    rw [hrl]
    unfold determineRiskLevel
    rw [if_pos (Or.inl hc)]
  · intro pr a b hab
    by_cases hcrit : pyLower pr = "critical"
    · simp [determineRiskLevel, hcrit, riskRank]
    · by_cases hhigh : pyLower pr = "high"
      · simp only [determineRiskLevel, hcrit, hhigh, false_or, true_or,
          show ("high":String) ≠ "critical" by decide, or_false]
        split_ifs <;> simp [riskRank] <;> linarith
      · simp only [determineRiskLevel, hcrit, hhigh, false_or]
        split_ifs <;> simp [riskRank] <;> linarith

/-- Witness for C7: a concrete critical-priority input, and a concrete
probability pair for the monotonicity part. -/
theorem breach_risk_override_witness :
    (hybridPredict c7Inp).risk_level = RiskLevel.critical ∧
    riskRank (determineRiskLevel 0 "low") ≤ riskRank (determineRiskLevel 1 "low") :=
  ⟨(breach_risk_override c7Inp rfl).1,
   (breach_risk_override c7Inp rfl).2 "low" 0 1 (by norm_num)⟩

/-! ## Claim C8: SLA priority monotonicity -/

/-- C8.  Priority monotonicity: with every other field fixed, moving the
priority up the scale `low < medium < high < critical` never increases the
predicted resolution hours of `HybridSLAEngine.predict`. -/
theorem sla_priority_monotonicity (inp : SLAInput) (p q : String)
    (hp : p ∈ priorityOrder) (hq : q ∈ priorityOrder)
    (hr : priRank p ≤ priRank q) :
    (hybridPredict {inp with priority := q}).predicted_resolution_hours ≤
      (hybridPredict {inp with priority := p}).predicted_resolution_hours := by
  have pl : priorityMult (parsePriority "low") = 3/2 := rfl
  have pm : priorityMult (parsePriority "medium") = 1 := rfl
  have ph : priorityMult (parsePriority "high") = 1/2 := rfl
  have pc : priorityMult (parsePriority "critical") = 1/4 := rfl
  have hm : priorityMult (parsePriority q) ≤ priorityMult (parsePriority p) := by
    fin_cases hp <;> fin_cases hq <;>
      first
        | (exfalso; revert hr; decide)
        | (simp only [pl, pm, ph, pc]; norm_num)
  have hstage := @ruleStage_mono inp p q hm
  have hraw : ruleHoursRaw {inp with priority := q} ≤
      ruleHoursRaw {inp with priority := p} := pyRound_mono 1 hstage
  have hfloor : ruleHours {inp with priority := q} ≤
      ruleHours {inp with priority := p} := max_le_max (le_refl 1) hraw
  exact pyRound_mono 1 hfloor

/-- Witness for C8 at a concrete input and the pair (low, critical). -/
theorem sla_priority_monotonicity_witness :
    priRank "low" ≤ priRank "critical" ∧
    (hybridPredict {c8Inp with priority := "critical"}).predicted_resolution_hours ≤
      (hybridPredict {c8Inp with priority := "low"}).predicted_resolution_hours :=
  ⟨by decide,
   sla_priority_monotonicity c8Inp "low" "critical" (by decide) (by decide)
     (by decide)⟩

/-! ## Claim C9: human-review buffer -/

theorem rhe_intCast (n : ℤ) : rhe (n : ℚ) = n := by
  unfold rhe
  dsimp only
  rw [Int.floor_intCast]
  norm_num

theorem ruleH5_review (inp : SLAInput) :
    ruleH5 {inp with requires_human_review := true} =
      ruleH5 {inp with requires_human_review := false} + 4 := by
  unfold ruleH5 ruleH4 ruleH3 ruleH2 ruleH1
  dsimp only
  simp
  ring

/-- C9 counterexample: for the input `category="safety"`,
`priority="critical"`, `visual_severity="critical"` (one evidence source), the
no-review prediction is clamped at the 1-hour floor, so turning on
`requires_human_review` moves the prediction from 1h to 4.5h — an increase of
3.5h, not the configured 4h buffer.  The claim as stated ("the increase equals
exactly the configured fixed buffer") is false. -/
theorem human_review_buffer_counterexample :
    ruleHours {c9Inp with requires_human_review := true} = 9/2 ∧
    ruleHours {c9Inp with requires_human_review := false} = 1 ∧
    ruleHours {c9Inp with requires_human_review := true} ≠
      ruleHours {c9Inp with requires_human_review := false} + 4 := by
  have eT : ruleStage {c9Inp with requires_human_review := true} =
      4 * (1/4) * (1/2) + 4 + 0 + 0 := rfl
  have eF : ruleStage {c9Inp with requires_human_review := false} =
      4 * (1/4) * (1/2) + 0 + 0 + 0 := rfl
  have rT : ruleHoursRaw {c9Inp with requires_human_review := true} = 9/2 := by
    unfold ruleHoursRaw
    rw [eT, show (4 * (1/4) * (1/2) + 4 + 0 + 0 : ℚ) = 9/2 by norm_num]
    unfold pyRound
    rw [show (10:ℚ)^1 * (9/2) = ((45:ℤ):ℚ) by norm_num, rhe_intCast]
    norm_num
  have rF : ruleHoursRaw {c9Inp with requires_human_review := false} = 1/2 := by
    unfold ruleHoursRaw
    rw [eF, show (4 * (1/4) * (1/2) + 0 + 0 + 0 : ℚ) = 1/2 by norm_num]
    unfold pyRound
    rw [show (10:ℚ)^1 * (1/2) = ((5:ℤ):ℚ) by norm_num, rhe_intCast]
    norm_num
  have hT : ruleHours {c9Inp with requires_human_review := true} = 9/2 := by
    unfold ruleHours
    rw [rT]
    exact max_eq_right (by norm_num)
  have hF : ruleHours {c9Inp with requires_human_review := false} = 1 := by
    unfold ruleHours
    rw [rF]
    exact max_eq_left (by norm_num)
  refine ⟨hT, hF, ?_⟩
  rw [hT, hF]
  norm_num

/-- C9 amended.  For every `SLAInput` with at most one evidence source,
enabling `requires_human_review` strictly increases the rule-engine
prediction; and the increase is exactly the configured 4-hour buffer whenever
the no-review prediction is not clamped at the 1-hour floor (its rounded raw
value is at least 1).  With more than one source the buffer is scaled by the
geometric evidence discount, and under the floor the visible increase is
smaller — as the counterexample shows. -/
theorem human_review_buffer (inp : SLAInput) (hsc : inp.source_count ≤ 1) :
    ruleHours {inp with requires_human_review := false} <
      ruleHours {inp with requires_human_review := true} ∧
    (1 ≤ ruleHoursRaw {inp with requires_human_review := false} →
      ruleHours {inp with requires_human_review := true} =
        ruleHours {inp with requires_human_review := false} + 4) := by
  have hns : ¬ (1 < inp.source_count) := by omega
  have hstage : ruleStage {inp with requires_human_review := true} =
      ruleStage {inp with requires_human_review := false} + 4 := by
    unfold ruleStage
    dsimp only
    rw [if_neg hns, if_neg hns]
    exact ruleH5_review inp
  have hrawT : ruleHoursRaw {inp with requires_human_review := true} =
      ruleHoursRaw {inp with requires_human_review := false} + 4 := by
    unfold ruleHoursRaw
    rw [hstage, pyRound_one_add_four]
  have h0 : 0 ≤ ruleHoursRaw {inp with requires_human_review := false} :=
    pyRound_nonneg 1 (ruleStage_nonneg _)
  constructor
  · unfold ruleHours
    rw [hrawT]
    rw [max_eq_right (by linarith :
      (1:ℚ) ≤ ruleHoursRaw {inp with requires_human_review := false} + 4)]
    exact max_lt (by linarith) (by linarith)
  · intro h1
    unfold ruleHours
    rw [hrawT]
    rw [max_eq_right (by linarith :
      (1:ℚ) ≤ ruleHoursRaw {inp with requires_human_review := false} + 4)]
    rw [max_eq_right h1]

/-- Witness for C9 (amended) at a concrete unclamped input (`hr`/`medium`,
72h baseline). -/
theorem human_review_buffer_witness :
    ruleHours {c9WitnessInp with requires_human_review := false} <
      ruleHours {c9WitnessInp with requires_human_review := true} ∧
    ruleHours {c9WitnessInp with requires_human_review := true} =
      ruleHours {c9WitnessInp with requires_human_review := false} + 4 := by
  have h := human_review_buffer c9WitnessInp (by decide)
  refine ⟨h.1, h.2 ?_⟩
  have e : ruleStage {c9WitnessInp with requires_human_review := false} =
      72 * 1 + 0 + 0 + 0 := rfl
  unfold ruleHoursRaw
  rw [e, show (72 * 1 + 0 + 0 + 0 : ℚ) = ((72:ℤ):ℚ) by norm_num]
  unfold pyRound
  rw [show (10:ℚ)^1 * ((72:ℤ):ℚ) = ((720:ℤ):ℚ) by norm_num, rhe_intCast]
  norm_num

/-! ## Claim C10: chunk round-trip -/

/-- C10 counterexample: the two-character input `" a"` (far shorter than ten
times the configured chunk size) yields the single chunk `"a"` —
`chunk_text` strips the surrounding whitespace of each chunk — so concatenating
the chunk contents does not reconstruct the input.  The round-trip claim as
stated is false. -/
theorem chunk_round_trip_counterexample :
    " a".data.length < 10 * CHUNK_SIZE ∧
    (chunkTextContents CHUNK_SIZE CHUNK_OVERLAP " a".data).flatten ≠
      " a".data := by
  have hrs : recursiveSplit CHUNK_SIZE chunkSeparators " a".data =
      [" a".data] := by
    rw [recursiveSplit.eq_def]
    decide
  have h2 : chunkTextContents CHUNK_SIZE CHUNK_OVERLAP " a".data =
      ["a".data] := by
    unfold chunkTextContents
    rw [hrs]
    decide
  constructor
  · decide
  · rw [h2]
    decide

/-- C10 amended.  The round-trip holds in the single-chunk regime: for every
non-empty input with no leading/trailing whitespace and length at most the
configured chunk size, `chunk_text` produces exactly one chunk whose content
is the input, so concatenation reconstructs the text.  For longer inputs the
splitter drops the separator occurrences at chunk boundaries and the merge
step strips whitespace, so exact reconstruction fails in general. -/
theorem chunk_round_trip (t : List Char) (hne : t ≠ [])
    (hstrip : pyStrip t = t) (hlen : t.length ≤ CHUNK_SIZE) :
    chunkTextContents CHUNK_SIZE CHUNK_OVERLAP t = [t] ∧
    (chunkTextContents CHUNK_SIZE CHUNK_OVERLAP t).flatten = t := by
  have hrs : recursiveSplit CHUNK_SIZE chunkSeparators t = [t] := by
    rw [recursiveSplit.eq_def]
    dsimp only
    rw [if_neg hne, if_pos hlen]
  have hm : mergeChunks CHUNK_OVERLAP [t] = [t] := by
    unfold mergeChunks
    simp [hstrip, hne]
  have hmain : chunkTextContents CHUNK_SIZE CHUNK_OVERLAP t = [t] := by
    unfold chunkTextContents
    rw [if_neg (show ¬(pyStrip t = []) by rw [hstrip]; exact hne)]
    rw [hrs, hm]
    simp [hstrip]
  exact ⟨hmain, by rw [hmain]; simp⟩

/-- Witness for C10 (amended) at the concrete input `"hello"`. -/
theorem chunk_round_trip_witness :
    chunkTextContents CHUNK_SIZE CHUNK_OVERLAP "hello".data = ["hello".data] ∧
    (chunkTextContents CHUNK_SIZE CHUNK_OVERLAP "hello".data).flatten =
      "hello".data :=
  chunk_round_trip "hello".data (by decide) (by decide) (by decide)
